import Mathlib

/-!
Verification development for the online-update orchestration logic of the
`terraform-provider-irmc-redfish` repository.

The Go source is shallowly embedded: Terraform framework values
(`types.String`, `types.List`, `types.Bool`) become small inductive types
with explicit `null` / `unknown` / `value` states; HTTP calls and the
wall clock become explicit oracle parameters; durations are modelled in
nanoseconds exactly as Go `time.Duration` counts them.  Every definition
is translated from the source files (`internal/provider/update_helper.go`,
the online-update resource file and `internal/models/online_update.go`);
log-only side effects (`tflog.Warn`) are modelled as boolean flags or
warning lists so that warning-related statements can be expressed.
-/

/-- Model of the Terraform framework `types.String`: a string value that can
also be null or unknown.  `valueString` mirrors Go `ValueString()`, which
yields the empty string for null/unknown values. -/
inductive TFString where
  | null
  | unknown
  | value (s : String)
deriving DecidableEq, Repr

def TFString.isNull : TFString → Bool
  | .null => true
  | _ => false

def TFString.isUnknown : TFString → Bool
  | .unknown => true
  | _ => false

def TFString.valueString : TFString → String
  | .value s => s
  | _ => ""

/-- Model of the Terraform framework `types.Bool`. -/
inductive TFBool where
  | null
  | unknown
  | value (b : Bool)
deriving DecidableEq, Repr

/-- Model of the Terraform framework `types.List` of strings (the only list
shape used by the online-update resource).  `elems` mirrors the successful
`ElementsAs` conversion on a known, non-null list. -/
inductive TFList where
  | null
  | unknown
  | value (elems : List String)
deriving DecidableEq, Repr

def TFList.isNull : TFList → Bool
  | .null => true
  | _ => false

def TFList.isUnknown : TFList → Bool
  | .unknown => true
  | _ => false

def TFList.elems : TFList → List String
  | .value l => l
  | _ => []

/-- `models.OnlineUpdateCheckItem` from `internal/models/online_update.go`. -/
structure OnlineUpdateCheckItem where
  designation : TFString
  component : TFString
  subComponent : TFString
  currentVersion : TFString
  newVersion : TFString
  severity : TFString
  status : TFString
  rebootRequired : TFString
  downloaded : TFBool
  executionStatus : TFString
  relNotePath : TFString
deriving DecidableEq, Repr

/-- `models.OnlineUpdateCheck` from `internal/models/online_update.go`. -/
structure OnlineUpdateCheck where
  lastStatusChangeDate : TFString
  updateCollection : List OnlineUpdateCheckItem
deriving DecidableEq, Repr

/-- `models.OnlineUpdateResourceModel`; the `Id` and `RedfishServer` fields
take no part in the update-list and payload logic and are omitted from the
embedding. -/
structure OnlineUpdateResourceModel where
  updateList : TFList
  executeOnlineUpdOperationTime : TFString
  executeOnlineUpdScheduleTime : TFString
deriving DecidableEq, Repr

/-- The fixed allow-list `allowedUpdateComponents`; the Go map is used for
membership only, so a list of its keys is an exact model. -/
def allowedUpdateComponents : List String :=
  ["Agent-Lx", "Agent-Win", "FibreChannelController", "LanController",
   "ManagementController", "PrimSupportPack-Win", "ScsiController",
   "Storage", "SystemBoard", "Others"]

/-- ASCII whitespace, as relevant to the update-list entries; models the
character class cut by Go `strings.TrimSpace`. -/
def isSpaceChar (c : Char) : Bool :=
  c == ' ' || c == '\t' || c == '\n' || c == '\r'

/-- Model of Go `strings.TrimSpace`: drop leading and trailing whitespace. -/
def trimSpace (s : String) : String :=
  String.mk (((s.data.dropWhile isSpaceChar).reverse.dropWhile isSpaceChar).reverse)

/-- Model of Go `strings.Contains(s, "/")`: the separator is a single
character, so substring containment is character containment. -/
def containsSlash (s : String) : Bool :=
  s.data.contains '/'

/-- Accumulated result of the request-parsing loop in `PrepareUpdateLists`
(the `requestedDesignations` / `requestedComponents` maps and the
`applyOthers` / `noneEmptyRequest` flags).  The Go maps are used for
membership only, so lists of their keys are an exact model. -/
structure RequestParse where
  requestedDesignations : List String
  requestedComponents : List String
  applyOthers : Bool
  noneEmptyRequest : Bool
deriving DecidableEq, Repr

/-- The per-entry classification loop of `PrepareUpdateLists` (lines
345-362 of the resource file): blank entries are skipped, `Others` sets
the catch-all flag, entries with a separator are designations, entries in
the allow-list are component categories, anything else is ignored with a
warning. -/
def parseRequestedUpdates : List String → RequestParse
  | [] =>
    { requestedDesignations := [], requestedComponents := [],
      applyOthers := false, noneEmptyRequest := false }
  | req :: rest =>
    let tail := parseRequestedUpdates rest
    let trimmedReq := trimSpace req
    if trimmedReq = "" then tail
    else if trimmedReq = "Others" then
      { tail with applyOthers := true, noneEmptyRequest := true }
    else if containsSlash trimmedReq then
      { tail with requestedDesignations := trimmedReq :: tail.requestedDesignations,
                  noneEmptyRequest := true }
    else if allowedUpdateComponents.contains trimmedReq then
      { tail with requestedComponents := trimmedReq :: tail.requestedComponents,
                  noneEmptyRequest := true }
    else
      { tail with noneEmptyRequest := true }

/-- The designation string of an item, as read by the selection loop. -/
def itemDesig (item : OnlineUpdateCheckItem) : String :=
  item.designation.valueString

/-- The per-item `isSelected` cascade of `PrepareUpdateLists` (lines
371-392): select-all, else designation match, else component match, else
the catch-all for components outside the allow-list. -/
def updateItemSelected (parse : RequestParse) (applyAll : Bool)
    (item : OnlineUpdateCheckItem) : Bool :=
  let designation := item.designation.valueString
  let component := item.component.valueString
  if applyAll then true
  else if parse.requestedDesignations.contains designation then true
  else if parse.requestedComponents.contains component then true
  else if parse.applyOthers && !(allowedUpdateComponents.contains component) then true
  else false

/-- The selection loop of `PrepareUpdateLists` (lines 371-399): selected
designations in collection order, deselected designations (only appended
outside select-all mode) in collection order. -/
def buildSelectionLists (parse : RequestParse) (applyAll : Bool) :
    List OnlineUpdateCheckItem → List String × List String
  | [] => ([], [])
  | item :: rest =>
    let tail := buildSelectionLists parse applyAll rest
    if updateItemSelected parse applyAll item then
      (itemDesig item :: tail.1, tail.2)
    else if !applyAll then
      (tail.1, itemDesig item :: tail.2)
    else
      tail

/-- `PrepareUpdateLists` from the online-update resource file (lines
327-402).  The only error path in the Go function is a failed framework
list conversion (`ElementsAs`), which the typed `TFList` model cannot
exhibit, so the result is the pair of lists. -/
def PrepareUpdateLists (plan : OnlineUpdateResourceModel)
    (collection : OnlineUpdateCheck) : List String × List String :=
  let userProvidedList := !plan.updateList.isNull && !plan.updateList.isUnknown
  let requestedUpdates := if userProvidedList then plan.updateList.elems else []
  let parse := parseRequestedUpdates requestedUpdates
  let applyAll := !parse.noneEmptyRequest
  buildSelectionLists parse applyAll collection.updateCollection

example :
    PrepareUpdateLists
      { updateList := .value ["SystemBoard"],
        executeOnlineUpdOperationTime := .value "Immediately",
        executeOnlineUpdScheduleTime := .null }
      { lastStatusChangeDate := .value "2024-01-01T00:00:00Z",
        updateCollection :=
          [{ designation := .value "SystemBoard/A", component := .value "SystemBoard",
             subComponent := .value "", currentVersion := .value "", newVersion := .value "",
             severity := .value "", status := .value "", rebootRequired := .value "",
             downloaded := .value false, executionStatus := .value "", relNotePath := .value "" },
           { designation := .value "Storage/B", component := .value "Storage",
             subComponent := .value "", currentVersion := .value "", newVersion := .value "",
             severity := .value "", status := .value "", rebootRequired := .value "",
             downloaded := .value false, executionStatus := .value "", relNotePath := .value "" }] }
      = (["SystemBoard/A"], ["Storage/B"]) := by decide

example :
    PrepareUpdateLists
      { updateList := .value ["Others"],
        executeOnlineUpdOperationTime := .value "Immediately",
        executeOnlineUpdScheduleTime := .null }
      { lastStatusChangeDate := .value "",
        updateCollection :=
          [{ designation := .value "SystemBoard/A", component := .value "SystemBoard",
             subComponent := .value "", currentVersion := .value "", newVersion := .value "",
             severity := .value "", status := .value "", rebootRequired := .value "",
             downloaded := .value false, executionStatus := .value "", relNotePath := .value "" },
           { designation := .value "VendorX/C", component := .value "VendorX",
             subComponent := .value "", currentVersion := .value "", newVersion := .value "",
             severity := .value "", status := .value "", rebootRequired := .value "",
             downloaded := .value false, executionStatus := .value "", relNotePath := .value "" }] }
      = (["VendorX/C"], ["SystemBoard/A"]) := by decide

/-- The decoded JSON body of a successful `OnlineUpdateGetCollection`
response, mirroring the anonymous struct in `GetOnlineUpdateCollection`. -/
structure RawUpdateItem where
  designation : String
  component : String
  subComponent : String
  current : String
  new : String
  severity : String
  status : String
  reboot : String
  downloaded : Bool
  execution : String
  relNotePath : String
deriving DecidableEq, Repr

structure CollectionJson where
  status : String
  lastStatusChangeDate : String
  updateCollection : List RawUpdateItem
deriving DecidableEq, Repr

instance {α β : Type} [DecidableEq α] [DecidableEq β] : DecidableEq (Except α β) :=
  fun x y =>
    match x, y with
    | .error a, .error b => decidable_of_iff (a = b) (by simp)
    | .error _, .ok _ => isFalse (by simp)
    | .ok _, .error _ => isFalse (by simp)
    | .ok a, .ok b => decidable_of_iff (a = b) (by simp)

/-- Outcome of one HTTP POST to the get-collection endpoint, as seen by
`GetOnlineUpdateCollection`: either a transport error, or a response with
a status code, a raw body (used in error messages) and the result of
decoding the body as JSON. -/
inductive CollectionHttpResult where
  | transportError (msg : String)
  | response (statusCode : Nat) (body : String) (decoded : Except String CollectionJson)
deriving DecidableEq, Repr

/-- The three-way result of Go `GetOnlineUpdateCollection`, whose Go
signature is `(collection, inProgress bool, err)`. -/
inductive CollectionFetchOutcome where
  | fetchError (msg : String)
  | inProgress
  | ready (collection : OnlineUpdateCheck)
deriving DecidableEq, Repr

/-- Conversion of one decoded item into the model struct, mirroring the
`types.StringValue` / `types.BoolValue` wrapping loop in
`GetOnlineUpdateCollection`. -/
def toCheckItem (u : RawUpdateItem) : OnlineUpdateCheckItem :=
  { designation := .value u.designation, component := .value u.component,
    subComponent := .value u.subComponent, currentVersion := .value u.current,
    newVersion := .value u.new, severity := .value u.severity,
    status := .value u.status, rebootRequired := .value u.reboot,
    downloaded := .value u.downloaded, executionStatus := .value u.execution,
    relNotePath := .value u.relNotePath }

/-- `GetOnlineUpdateCollection` from `internal/provider/update_helper.go`
(lines 128-189): POST, require status 200, decode, report `InProgress` as
not-ready, otherwise wrap the decoded collection. -/
def GetOnlineUpdateCollection (r : CollectionHttpResult) : CollectionFetchOutcome :=
  match r with
  | .transportError m => .fetchError ("POST request failed: " ++ m)
  | .response statusCode body decoded =>
    if statusCode ≠ 200 then
      .fetchError (s!"Unexpected status code {statusCode}: " ++ body)
    else
      match decoded with
      | .error m => .fetchError ("Error decoding JSON response: " ++ m)
      | .ok result =>
        if result.status = "InProgress" then .inProgress
        else
          .ready { lastStatusChangeDate := .value result.lastStatusChangeDate,
                   updateCollection := result.updateCollection.map toCheckItem }

/-- The budget-exhausted message of `GetOnlineUpdateCollectionWithRetry`. -/
def collectionNotReadyMsg (retries : Nat) : String :=
  s!"Collection was not ready after {retries} retries"

/-- The retry loop of `GetOnlineUpdateCollectionWithRetry`: attempt `i`,
with `remaining` attempts left out of the original `retries` budget.  A
fetch error aborts immediately; `InProgress` sleeps and retries; a ready
collection is returned at once; an exhausted budget is a hard error. -/
def getCollectionRetryAux (fetch : Nat → CollectionHttpResult) (retries : Nat) :
    Nat → Nat → Except String OnlineUpdateCheck
  | _, 0 => .error (collectionNotReadyMsg retries)
  | i, remaining + 1 =>
    match GetOnlineUpdateCollection (fetch i) with
    | .fetchError m => .error m
    | .inProgress => getCollectionRetryAux fetch retries (i + 1) remaining
    | .ready collection => .ok collection

/-- `GetOnlineUpdateCollectionWithRetry` from
`internal/provider/update_helper.go` (lines 191-206).  The HTTP POST of
each attempt is an oracle indexed by attempt number; `delay` is the
inter-attempt sleep in nanoseconds, which consumes wall-clock time only
and does not influence the result. -/
def GetOnlineUpdateCollectionWithRetry (fetch : Nat → CollectionHttpResult)
    (retries : Nat) (delay : Nat) : Except String OnlineUpdateCheck :=
  let _ := delay
  getCollectionRetryAux fetch retries 0 retries

/-- `CACHE_DURATION = 6 * time.Hour`, in nanoseconds as Go counts
`time.Duration`. -/
def CACHE_DURATION : Int := 6 * 3600 * 1000000000

/-- `1 * time.Second` in nanoseconds. -/
def oneSecondNs : Nat := 1000000000

/-- The time collaborators used by `IsCollectionCacheValid`:
`time.Parse(time.RFC3339, ·)` (an RFC3339 timestamp in nanoseconds since
the epoch, or a parse failure) and the current clock reading `time.Now()`
against which `time.Since` subtracts. -/
structure TimeEnv where
  parseRFC3339 : String → Option Int
  now : Int

/-- `IsCollectionCacheValid` from `internal/provider/update_helper.go`
(lines 220-238): fetch the existing collection with a 2-attempt,
1-second-spaced retry; any error means invalid; otherwise the cache is
valid iff the last status-change date is a present value that parses as
RFC3339 and lies strictly less than `CACHE_DURATION` in the past. -/
def IsCollectionCacheValid (env : TimeEnv) (fetch : Nat → CollectionHttpResult) : Bool :=
  match GetOnlineUpdateCollectionWithRetry fetch 2 oneSecondNs with
  | .error _ => false
  | .ok existingCollection =>
    if !existingCollection.lastStatusChangeDate.isNull
        && !existingCollection.lastStatusChangeDate.isUnknown then
      let dateStr := existingCollection.lastStatusChangeDate.valueString
      match env.parseRFC3339 dateStr with
      | some lastCheckTime =>
        if env.now - lastCheckTime < CACHE_DURATION then true else false
      | none => false
    else false

/-- Outcome of one HTTP POST to the modify-collection endpoint inside the
deselect loop of `DeselectUpdates`. -/
inductive DeselectPostResult where
  | transportError (msg : String)
  | response (statusCode : Nat) (body : String)
deriving DecidableEq, Repr

/-- One iteration of the `DeselectUpdates` loop: `none` means the deselect
POST for this designation succeeded, `some msg` is the error that aborts
the loop.  Accepted status codes are 200 and 204. -/
def deselectOne (r : DeselectPostResult) (designation : String) : Option String :=
  match r with
  | .transportError m =>
    some ("POST request to deselect " ++ designation ++ " failed: " ++ m)
  | .response statusCode body =>
    if statusCode ≠ 200 && statusCode ≠ 204 then
      some ("deselect POST request for " ++ designation ++
        s!" returned status code {statusCode}: " ++ body)
    else none

/-- `DeselectUpdates` from the online-update resource file (lines 289-325):
sequential per-designation POSTs, aborting at the first failure; an empty
list issues no call and succeeds. -/
def DeselectUpdates (oracle : String → DeselectPostResult) :
    List String → Option String
  | [] => none
  | designation :: rest =>
    match deselectOne (oracle designation) designation with
    | some e => some e
    | none => DeselectUpdates oracle rest

/-- The execute payload map built by `BuildExecutePayload`:
`ExecutionMode`, `SchedulingType` and the optional `StartDate` key. -/
structure ExecPayload where
  executionMode : String
  schedulingType : String
  startDate : Option String
deriving DecidableEq, Repr

/-- `BuildExecutePayload` from the online-update resource file (lines
404-427).  The boolean in the result records whether the
schedule-time-ignored warning (`tflog.Warn`) was emitted; `isFsas` is a
parameter of the Go function that its body never reads. -/
def BuildExecutePayload (plan : OnlineUpdateResourceModel) (isFsas : Bool) :
    Except String (ExecPayload × Bool) :=
  let _ := isFsas
  let operationTimeType :=
    if !plan.executeOnlineUpdOperationTime.isNull
        && !plan.executeOnlineUpdOperationTime.isUnknown then
      plan.executeOnlineUpdOperationTime.valueString
    else "Immediately"
  if operationTimeType = "Once" then
    if !plan.executeOnlineUpdScheduleTime.isNull
        && !plan.executeOnlineUpdScheduleTime.isUnknown then
      .ok ({ executionMode := "ExecuteUpdate", schedulingType := operationTimeType,
             startDate := some plan.executeOnlineUpdScheduleTime.valueString }, false)
    else
      .error ("attribute execute_online_upd_schedule_time is required when " ++
        "execute_online_upd_operation_time is Once")
  else if !plan.executeOnlineUpdScheduleTime.isNull
      && !plan.executeOnlineUpdScheduleTime.isUnknown then
    .ok ({ executionMode := "ExecuteUpdate", schedulingType := operationTimeType,
           startDate := none }, true)
  else
    .ok ({ executionMode := "ExecuteUpdate", schedulingType := operationTimeType,
           startDate := none }, false)

/-- Outcome of the execute HTTP POST, as seen by
`TriggerOnlineUpdateExecute`: transport error, or a response with status
code, `Location` header value (empty string when the header is absent,
as Go `Header.Get` reports it) and body. -/
inductive ExecHttpResult where
  | transportError (msg : String)
  | response (statusCode : Nat) (locationHeader : String) (body : String)
deriving DecidableEq, Repr

/-- `TriggerOnlineUpdateExecute` from the online-update resource file
(lines 429-451): accept status 202/200/204/201, then require a non-empty
task `Location` header — its absence is an error even on success codes. -/
def TriggerOnlineUpdateExecute (r : ExecHttpResult) : Except String String :=
  match r with
  | .transportError m => .error ("POST request failed: " ++ m)
  | .response statusCode locationHeader _body =>
    if statusCode ≠ 202 && statusCode ≠ 200 && statusCode ≠ 204 && statusCode ≠ 201 then
      .error (s!"POST request returned status code {statusCode}")
    else if locationHeader = "" then
      .error "Task Location header not found in response"
    else
      .ok locationHeader

/-- The collaborators of the `Create` steps that follow collection
retrieval: the check endpoint (which becomes the resource id), the vendor
flag, the deselect-POST oracle keyed by designation, the execute-POST
outcome, and the result of `CheckOnlineUpdateStatus` on the execute task
(`none` = task finished successfully, `some msg` = failure). -/
structure CreateEnv where
  checkEndpoint : String
  isFsas : Bool
  deselectOracle : String → DeselectPostResult
  executeHttp : ExecHttpResult
  pollExecuteResult : Option String

/-- Observable outcome of the `Create` steps after collection retrieval:
the diagnostic result (error title and detail, or success), diagnostic
warnings, the id written to state, whether `PrepareUpdateLists` ran,
which designations were handed to `DeselectUpdates`, whether
`BuildExecutePayload` ran, whether the execute POST was issued, and the
seconds spent in a fixed `time.Sleep`. -/
structure CreateOutcome where
  result : Except (String × String) Unit
  warnings : List String
  idValue : Option String
  reconciled : Bool
  deselectCalls : List String
  payloadAttempted : Bool
  executeCalled : Bool
  sleptSeconds : Nat
deriving DecidableEq, Repr

/-- The `Create` flow of the online-update resource from the point where
the collection has been retrieved (lines 201-258): empty collection
short-circuits to success; otherwise reconcile, deselect, build the
payload, and trigger execution iff something was selected or the desired
list was null, polling (or sleeping 10 s without a task location) when
the operation time is `Immediately`; a non-null list matching nothing
yields a warning instead of execution. -/
def createAfterCollection (plan : OnlineUpdateResourceModel)
    (collection : OnlineUpdateCheck) (env : CreateEnv) : CreateOutcome :=
  if collection.updateCollection.length = 0 then
    { result := .ok (), warnings := [], idValue := some env.checkEndpoint,
      reconciled := false, deselectCalls := [], payloadAttempted := false,
      executeCalled := false, sleptSeconds := 0 }
  else
    let selected := (PrepareUpdateLists plan collection).1
    let deselected := (PrepareUpdateLists plan collection).2
    match DeselectUpdates env.deselectOracle deselected with
    | some errMsg =>
      { result := .error ("Failed to deselect updates via ModifyCollection", errMsg),
        warnings := [], idValue := none, reconciled := true,
        deselectCalls := deselected, payloadAttempted := false,
        executeCalled := false, sleptSeconds := 0 }
    | none =>
      match BuildExecutePayload plan env.isFsas with
      | .error e =>
        { result := .error ("Failed to build execute payload", e),
          warnings := [], idValue := none, reconciled := true,
          deselectCalls := deselected, payloadAttempted := true,
          executeCalled := false, sleptSeconds := 0 }
      | .ok _payload =>
        if selected.length != 0 || plan.updateList.isNull then
          match TriggerOnlineUpdateExecute env.executeHttp with
          | .error e =>
            { result := .error ("Trigger Online Update Execute Failed", e),
              warnings := [], idValue := none, reconciled := true,
              deselectCalls := deselected, payloadAttempted := true,
              executeCalled := true, sleptSeconds := 0 }
          | .ok executeTaskLocation =>
            if plan.executeOnlineUpdOperationTime.valueString = "Immediately" then
              if executeTaskLocation ≠ "" then
                match env.pollExecuteResult with
                | some e =>
                  { result := .error ("Online Update Execute Task Failed", e),
                    warnings := [], idValue := none, reconciled := true,
                    deselectCalls := deselected, payloadAttempted := true,
                    executeCalled := true, sleptSeconds := 0 }
                | none =>
                  { result := .ok (), warnings := [],
                    idValue := some env.checkEndpoint, reconciled := true,
                    deselectCalls := deselected, payloadAttempted := true,
                    executeCalled := true, sleptSeconds := 0 }
              else
                { result := .ok (), warnings := [],
                  idValue := some env.checkEndpoint, reconciled := true,
                  deselectCalls := deselected, payloadAttempted := true,
                  executeCalled := true, sleptSeconds := 10 }
            else
              { result := .ok (), warnings := [],
                idValue := some env.checkEndpoint, reconciled := true,
                deselectCalls := deselected, payloadAttempted := true,
                executeCalled := true, sleptSeconds := 0 }
        else
          { result := .ok (),
            warnings :=
              if !plan.updateList.isNull && collection.updateCollection.length != 0
                  && selected.length == 0 && deselected.length != 0 then
                ["No matching updates found"]
              else [],
            idValue := some env.checkEndpoint, reconciled := true,
            deselectCalls := deselected, payloadAttempted := true,
            executeCalled := false, sleptSeconds := 0 }

/-! ## Lemmas about the selection reconciler -/

lemma buildSelectionLists_true (parse : RequestParse)
    (items : List OnlineUpdateCheckItem) :
    buildSelectionLists parse true items = (items.map itemDesig, []) := by
  induction items with
  | nil => rfl
  | cons item rest ih => simp [buildSelectionLists, updateItemSelected, ih]

lemma buildSelectionLists_false (parse : RequestParse)
    (items : List OnlineUpdateCheckItem) :
    buildSelectionLists parse false items =
      ((items.filter fun item => updateItemSelected parse false item).map itemDesig,
       (items.filter fun item => !updateItemSelected parse false item).map itemDesig) := by
  induction items with
  | nil => rfl
  | cons item rest ih =>
    by_cases h : updateItemSelected parse false item
    · simp [buildSelectionLists, h, ih, List.filter_cons]
    · simp only [Bool.not_eq_true] at h
      simp [buildSelectionLists, h, ih, List.filter_cons]

lemma parseRequestedUpdates_noneEmptyRequest (reqs : List String) :
    (parseRequestedUpdates reqs).noneEmptyRequest
      = reqs.any fun r => trimSpace r != "" := by
  induction reqs with
  | nil => rfl
  | cons req rest ih =>
    by_cases h : trimSpace req = ""
    · simp [parseRequestedUpdates, h, ih]
    · simp only [parseRequestedUpdates, h, if_false, List.any_cons]
      have hb : (trimSpace req != "") = true := by simp [h]
      rw [hb, Bool.true_or]
      split
      · rfl
      · split
        · rfl
        · split <;> rfl

lemma parseRequestedUpdates_applyOthers_of_tail (reqs : List String)
    (h : (parseRequestedUpdates reqs).applyOthers = true) (req : String) :
    (parseRequestedUpdates (req :: reqs)).applyOthers = true := by
  simp only [parseRequestedUpdates]
  split
  · exact h
  · split
    · rfl
    · split
      · exact h
      · split
        · exact h
        · exact h

lemma parseRequestedUpdates_applyOthers (reqs : List String)
    (h : "Others" ∈ reqs.map trimSpace) :
    (parseRequestedUpdates reqs).applyOthers = true := by
  induction reqs with
  | nil => simp at h
  | cons req rest ih =>
    rw [List.map_cons, List.mem_cons] at h
    rcases h with h | h
    · have hne : ¬ trimSpace req = "" := by rw [← h]; decide
      simp [parseRequestedUpdates, hne, ← h]
    · exact parseRequestedUpdates_applyOthers_of_tail rest (ih h) req

/-- `PrepareUpdateLists` unfolded to the selection loop over the parsed
request. -/
lemma PrepareUpdateLists_def (plan : OnlineUpdateResourceModel)
    (collection : OnlineUpdateCheck) :
    PrepareUpdateLists plan collection =
      buildSelectionLists
        (parseRequestedUpdates
          (if (!plan.updateList.isNull && !plan.updateList.isUnknown) = true then
            plan.updateList.elems else []))
        (!(parseRequestedUpdates
          (if (!plan.updateList.isNull && !plan.updateList.isUnknown) = true then
            plan.updateList.elems else [])).noneEmptyRequest)
        collection.updateCollection := rfl

/-- When the desired list is an explicit value with at least one non-blank
entry, `PrepareUpdateLists` is the filter/partition of the collection by
the per-item selection cascade. -/
lemma PrepareUpdateLists_eq_filter (plan : OnlineUpdateResourceModel)
    (collection : OnlineUpdateCheck) (reqs : List String)
    (hval : plan.updateList = .value reqs)
    (hne : (parseRequestedUpdates reqs).noneEmptyRequest = true) :
    PrepareUpdateLists plan collection =
      ((collection.updateCollection.filter
          fun item => updateItemSelected (parseRequestedUpdates reqs) false item).map itemDesig,
       (collection.updateCollection.filter
          fun item => !updateItemSelected (parseRequestedUpdates reqs) false item).map itemDesig) := by
  rw [PrepareUpdateLists_def, hval]
  simp [TFList.isNull, TFList.isUnknown, TFList.elems, hne, buildSelectionLists_false]

/-! ## Concrete fixtures used by witnesses -/

/-- An item with the given designation and component and empty remaining
fields, as the collection decoder would produce it. -/
def mkItem (d c : String) : OnlineUpdateCheckItem :=
  { designation := .value d, component := .value c, subComponent := .value "",
    currentVersion := .value "", newVersion := .value "", severity := .value "",
    status := .value "", rebootRequired := .value "", downloaded := .value false,
    executionStatus := .value "", relNotePath := .value "" }

/-- A plan with default operation time and no schedule time. -/
def planOf (l : TFList) : OnlineUpdateResourceModel :=
  { updateList := l, executeOnlineUpdOperationTime := .value "Immediately",
    executeOnlineUpdScheduleTime := .null }

/-- Collection with one `SystemBoard` and one `Storage` item. -/
def colSB : OnlineUpdateCheck :=
  { lastStatusChangeDate := .value "2024-01-01T00:00:00Z",
    updateCollection := [mkItem "SystemBoard/A" "SystemBoard", mkItem "Storage/B" "Storage"] }

/-- Collection with a single item whose component is literally `Others`. -/
def colOthersComp : OnlineUpdateCheck :=
  { lastStatusChangeDate := .value "2024-01-01T00:00:00Z",
    updateCollection := [mkItem "Others/X" "Others"] }

/-- An environment whose deselect and execute calls all succeed. -/
def envOk : CreateEnv :=
  { checkEndpoint := "/redfish/v1/Systems/0/Oem/ts_fujitsu/eLCM/Actions/FTSeLCM.OnlineUpdate",
    isFsas := false,
    deselectOracle := fun _ => .response 200 "",
    executeHttp := .response 202 "/redfish/v1/TaskService/Tasks/7" "",
    pollExecuteResult := none }

/-! ## C2: null / blank desired list selects everything -/

/-- C2: For every collection, if the desired update list is null, empty, or
contains only blank (whitespace) entries, `PrepareUpdateLists` selects
every item of the collection (in order) and returns an empty deselected
list.  (The unknown-list case behaves identically and is included.) -/
theorem prepare_update_lists_select_all (plan : OnlineUpdateResourceModel)
    (collection : OnlineUpdateCheck)
    (h : plan.updateList = .null ∨ plan.updateList = .unknown ∨
      ∃ reqs, plan.updateList = .value reqs ∧ ∀ r ∈ reqs, trimSpace r = "") :
    PrepareUpdateLists plan collection
      = (collection.updateCollection.map itemDesig, []) := by
  rcases h with h | h | ⟨reqs, hval, hblank⟩
  · rw [PrepareUpdateLists_def, h]
    simp [TFList.isNull, parseRequestedUpdates, buildSelectionLists_true]
  · rw [PrepareUpdateLists_def, h]
    simp [TFList.isUnknown, parseRequestedUpdates, buildSelectionLists_true]
  · rw [PrepareUpdateLists_def, hval]
    have hne : (parseRequestedUpdates reqs).noneEmptyRequest = false := by
      rw [parseRequestedUpdates_noneEmptyRequest]
      simp only [List.any_eq_false]
      intro r hr
      simp [hblank r hr]
    simp [TFList.isNull, TFList.isUnknown, TFList.elems, hne, buildSelectionLists_true]

theorem prepare_update_lists_select_all_witness :
    PrepareUpdateLists (planOf .null) colSB
      = (colSB.updateCollection.map itemDesig, []) :=
  prepare_update_lists_select_all (planOf .null) colSB (Or.inl rfl)

/-! ## C1: explicit non-blank list partitions the collection -/

/-- C1: For every collection with unique designations (a stated data-model
invariant) and every explicitly provided desired list with at least one
non-blank entry (so not in select-all mode), `PrepareUpdateLists`
partitions the collection: every item's designation lands in exactly one
of the two output lists, the union of the two lists is exactly the set of
item designations, and each output list is a sublist of the designations
in input collection order. -/
theorem prepare_update_lists_partition (plan : OnlineUpdateResourceModel)
    (collection : OnlineUpdateCheck) (reqs : List String)
    (hval : plan.updateList = .value reqs)
    (hnb : ∃ r ∈ reqs, trimSpace r ≠ "")
    (hnd : (collection.updateCollection.map itemDesig).Nodup) :
    (∀ item ∈ collection.updateCollection,
        (itemDesig item ∈ (PrepareUpdateLists plan collection).1
          ∧ itemDesig item ∉ (PrepareUpdateLists plan collection).2)
      ∨ (itemDesig item ∈ (PrepareUpdateLists plan collection).2
          ∧ itemDesig item ∉ (PrepareUpdateLists plan collection).1))
    ∧ (∀ d : String,
        (d ∈ (PrepareUpdateLists plan collection).1
          ∨ d ∈ (PrepareUpdateLists plan collection).2)
        ↔ ∃ item ∈ collection.updateCollection, itemDesig item = d)
    ∧ (PrepareUpdateLists plan collection).1.Sublist
        (collection.updateCollection.map itemDesig)
    ∧ (PrepareUpdateLists plan collection).2.Sublist
        (collection.updateCollection.map itemDesig) := by
  have hne : (parseRequestedUpdates reqs).noneEmptyRequest = true := by
    rw [parseRequestedUpdates_noneEmptyRequest]
    obtain ⟨r, hr, hr'⟩ := hnb
    exact List.any_eq_true.2 ⟨r, hr, by simpa using hr'⟩
  have heq := PrepareUpdateLists_eq_filter plan collection reqs hval hne
  have hinj := List.inj_on_of_nodup_map hnd
  refine ⟨?_, ?_, ?_, ?_⟩
  · intro item hitem
    by_cases hsel : updateItemSelected (parseRequestedUpdates reqs) false item = true
    · left
      constructor
      · rw [heq]
        exact List.mem_map_of_mem itemDesig (List.mem_filter.2 ⟨hitem, hsel⟩)
      · rw [heq]
        intro hmem
        obtain ⟨b, hb, hbd⟩ := List.mem_map.1 hmem
        obtain ⟨hbmem, hbp⟩ := List.mem_filter.1 hb
        have hbi : b = item := hinj hbmem hitem hbd
        rw [hbi, hsel] at hbp
        simp at hbp
    · right
      simp only [Bool.not_eq_true] at hsel
      constructor
      · rw [heq]
        refine List.mem_map_of_mem itemDesig (List.mem_filter.2 ⟨hitem, ?_⟩)
        simp [hsel]
      · rw [heq]
        intro hmem
        obtain ⟨b, hb, hbd⟩ := List.mem_map.1 hmem
        obtain ⟨hbmem, hbp⟩ := List.mem_filter.1 hb
        have hbi : b = item := hinj hbmem hitem hbd
        rw [hbi, hsel] at hbp
        simp at hbp
  · intro d
    constructor
    · intro hmem
      rcases hmem with hmem | hmem <;>
      · rw [heq] at hmem
        obtain ⟨b, hb, hbd⟩ := List.mem_map.1 hmem
        exact ⟨b, (List.mem_filter.1 hb).1, hbd⟩
    · rintro ⟨item, hitem, rfl⟩
      by_cases hsel : updateItemSelected (parseRequestedUpdates reqs) false item = true
      · left
        rw [heq]
        exact List.mem_map_of_mem itemDesig (List.mem_filter.2 ⟨hitem, hsel⟩)
      · right
        simp only [Bool.not_eq_true] at hsel
        rw [heq]
        refine List.mem_map_of_mem itemDesig (List.mem_filter.2 ⟨hitem, ?_⟩)
        simp [hsel]
  · rw [heq]
    exact (List.filter_sublist _).map itemDesig
  · rw [heq]
    exact (List.filter_sublist _).map itemDesig

theorem prepare_update_lists_partition_witness :
    (PrepareUpdateLists (planOf (.value ["SystemBoard"])) colSB).1.Sublist
      (colSB.updateCollection.map itemDesig) :=
  (prepare_update_lists_partition (planOf (.value ["SystemBoard"])) colSB
    ["SystemBoard"] rfl ⟨"SystemBoard", by decide, by decide⟩ (by decide)).2.2.1

/-! ## C3: the catch-all keyword respects the allow-list -/

/-- Membership of an unmatched item in the deselected list, in
explicit-list mode. -/
lemma mem_deselected_of_not_selected (plan : OnlineUpdateResourceModel)
    (collection : OnlineUpdateCheck) (reqs : List String)
    (item : OnlineUpdateCheckItem)
    (hval : plan.updateList = .value reqs)
    (hne : (parseRequestedUpdates reqs).noneEmptyRequest = true)
    (hitem : item ∈ collection.updateCollection)
    (hsel : updateItemSelected (parseRequestedUpdates reqs) false item = false) :
    itemDesig item ∈ (PrepareUpdateLists plan collection).2 := by
  rw [PrepareUpdateLists_eq_filter plan collection reqs hval hne]
  refine List.mem_map_of_mem itemDesig (List.mem_filter.2 ⟨hitem, ?_⟩)
  simp [hsel]

/-- C3: For every collection item whose component is in the fixed
allow-list, and every explicitly provided desired list containing the
catch-all keyword `Others` that matches the item neither by designation
nor by component, `PrepareUpdateLists` does not select the item (it lands
in the deselected list); and under the same no-match hypotheses the
catch-all selects an item only when its component is outside the
allow-list. -/
theorem catch_all_respects_allow_list (plan : OnlineUpdateResourceModel)
    (collection : OnlineUpdateCheck) (reqs : List String)
    (item : OnlineUpdateCheckItem)
    (hval : plan.updateList = .value reqs)
    (hoth : "Others" ∈ reqs.map trimSpace)
    (hitem : item ∈ collection.updateCollection)
    (hnd : (parseRequestedUpdates reqs).requestedDesignations.contains
      (item.designation.valueString) = false)
    (hnc : (parseRequestedUpdates reqs).requestedComponents.contains
      (item.component.valueString) = false) :
    (allowedUpdateComponents.contains (item.component.valueString) = true →
        updateItemSelected (parseRequestedUpdates reqs) false item = false
      ∧ itemDesig item ∈ (PrepareUpdateLists plan collection).2)
    ∧ (updateItemSelected (parseRequestedUpdates reqs) false item = true →
        allowedUpdateComponents.contains (item.component.valueString) = false) := by
  have hne : (parseRequestedUpdates reqs).noneEmptyRequest = true := by
    rw [parseRequestedUpdates_noneEmptyRequest]
    obtain ⟨r, hr, hr'⟩ := List.mem_map.1 hoth
    refine List.any_eq_true.2 ⟨r, hr, ?_⟩
    rw [hr']
    decide
  have hnd' : item.designation.valueString
      ∉ (parseRequestedUpdates reqs).requestedDesignations := by simpa using hnd
  have hnc' : item.component.valueString
      ∉ (parseRequestedUpdates reqs).requestedComponents := by simpa using hnc
  constructor
  · intro hallow
    have hallow' : item.component.valueString ∈ allowedUpdateComponents := by
      simpa using hallow
    have hsel : updateItemSelected (parseRequestedUpdates reqs) false item = false := by
      simp [updateItemSelected, hnd', hnc', hallow']
    exact ⟨hsel, mem_deselected_of_not_selected plan collection reqs item hval hne hitem hsel⟩
  · intro hsel
    by_contra hallow
    simp only [Bool.not_eq_false] at hallow
    have hallow' : item.component.valueString ∈ allowedUpdateComponents := by
      simpa using hallow
    simp [updateItemSelected, hnd', hnc', hallow'] at hsel

theorem catch_all_respects_allow_list_witness :
    itemDesig (mkItem "SystemBoard/A" "SystemBoard")
      ∈ (PrepareUpdateLists (planOf (.value ["Others"])) colSB).2 :=
  ((catch_all_respects_allow_list (planOf (.value ["Others"])) colSB ["Others"]
    (mkItem "SystemBoard/A" "SystemBoard") rfl (by decide) (by decide)
    (by decide) (by decide)).1 (by decide)).2

/-! ## C10: the keyword `Others` is only the catch-all flag -/

/-- C10: For the desired list consisting exactly of the keyword `Others`
and any collection item whose component field is literally `Others`,
`PrepareUpdateLists` places that item in the deselected list: the keyword
is consumed only as the catch-all flag, never as a component-category
match, and since the component `Others` is itself in the allow-list the
catch-all excludes the item. -/
theorem others_keyword_component_deselected (plan : OnlineUpdateResourceModel)
    (collection : OnlineUpdateCheck) (item : OnlineUpdateCheckItem)
    (hval : plan.updateList = .value ["Others"])
    (hitem : item ∈ collection.updateCollection)
    (hcomp : item.component = .value "Others") :
    updateItemSelected (parseRequestedUpdates ["Others"]) false item = false
    ∧ itemDesig item ∈ (PrepareUpdateLists plan collection).2 := by
  have hparse : parseRequestedUpdates ["Others"] =
      { requestedDesignations := [], requestedComponents := [],
        applyOthers := true, noneEmptyRequest := true } := by decide
  have hsel : updateItemSelected (parseRequestedUpdates ["Others"]) false item = false := by
    rw [hparse]
    simp [updateItemSelected, hcomp, TFString.valueString, allowedUpdateComponents]
  refine ⟨hsel, ?_⟩
  exact mem_deselected_of_not_selected plan collection ["Others"] item hval
    (by rw [hparse]) hitem hsel

theorem others_keyword_component_deselected_witness :
    itemDesig (mkItem "Others/X" "Others")
      ∈ (PrepareUpdateLists (planOf (.value ["Others"])) colOthersComp).2 :=
  (others_keyword_component_deselected (planOf (.value ["Others"])) colOthersComp
    (mkItem "Others/X" "Others") rfl (by decide) rfl).2

/-! ## C4: cache validity is a pure boolean of fetch + freshness -/

/-- C4: `IsCollectionCacheValid` is a boolean (it can neither return nor
propagate an error), and it returns `true` iff the collection fetch (2
attempts, 1-second spacing) succeeds, the returned
`lastStatusChangeDate` parses as an RFC3339 timestamp, and `now` minus
that timestamp is strictly less than 6 hours; any fetch error,
unparseable date, or stale date yields `false`. -/
theorem is_collection_cache_valid_iff (env : TimeEnv)
    (fetch : Nat → CollectionHttpResult) :
    IsCollectionCacheValid env fetch = true ↔
      ∃ existingCollection s t,
        GetOnlineUpdateCollectionWithRetry fetch 2 oneSecondNs = .ok existingCollection
        ∧ existingCollection.lastStatusChangeDate = .value s
        ∧ env.parseRFC3339 s = some t
        ∧ env.now - t < CACHE_DURATION := by
  unfold IsCollectionCacheValid
  cases hr : GetOnlineUpdateCollectionWithRetry fetch 2 oneSecondNs with
  | error m => simp
  | ok existingCollection =>
    obtain ⟨last, items⟩ := existingCollection
    cases last with
    | null => simp [TFString.isNull]
    | unknown => simp [TFString.isUnknown]
    | value s =>
      simp only [TFString.isNull, TFString.isUnknown, Bool.not_false, Bool.and_self,
        if_true, TFString.valueString]
      cases hp : env.parseRFC3339 s with
      | none => simp [hp]
      | some t =>
        by_cases hd : env.now - t < CACHE_DURATION
        · simp [hp, hd]
        · simp [hp, hd]

/-! ## C8: bounded retry semantics of the collection fetch -/

/-- Skipping an in-progress run: if the first `j` attempts starting at
`i` all report in-progress, the loop continues at attempt `i + j` with
`j` fewer attempts left. -/
lemma getCollectionRetryAux_skip (fetch : Nat → CollectionHttpResult)
    (retries : Nat) :
    ∀ (j i rem : Nat), j ≤ rem →
    (∀ k, k < j → GetOnlineUpdateCollection (fetch (i + k)) = .inProgress) →
    getCollectionRetryAux fetch retries i rem
      = getCollectionRetryAux fetch retries (i + j) (rem - j) := by
  intro j
  induction j with
  | zero => intro i rem _ _; simp
  | succ j ih =>
    intro i rem hle hin
    obtain ⟨rem', rfl⟩ : ∃ rem', rem = rem' + 1 := ⟨rem - 1, by omega⟩
    have h0 : GetOnlineUpdateCollection (fetch i) = .inProgress := by
      have := hin 0 (Nat.succ_pos j)
      simpa using this
    have step : getCollectionRetryAux fetch retries i (rem' + 1)
        = getCollectionRetryAux fetch retries (i + 1) rem' := by
      simp [getCollectionRetryAux, h0]
    rw [step]
    have ih' := ih (i + 1) rem' (by omega) (fun k hk => by
      have harg : i + 1 + k = i + (k + 1) := by omega
      rw [harg]
      exact hin (k + 1) (by omega))
    rw [ih']
    congr 1 <;> omega

/-- C8: For every retry budget `n` and delay, if all `n` collection-fetch
attempts report in-progress, `GetOnlineUpdateCollectionWithRetry` returns
the budget-exhausted error and no collection; a fetch attempt failing
with a transport/decode error (after only in-progress attempts before
it) aborts immediately with that error, regardless of what later
attempts would return; and a ready collection is returned as soon as one
attempt yields it. -/
theorem get_collection_retry_budget (fetch : Nat → CollectionHttpResult)
    (n delay : Nat) :
    ((∀ i, i < n → GetOnlineUpdateCollection (fetch i) = .inProgress) →
      GetOnlineUpdateCollectionWithRetry fetch n delay
        = .error (collectionNotReadyMsg n))
    ∧ (∀ j m, j < n →
        (∀ i, i < j → GetOnlineUpdateCollection (fetch i) = .inProgress) →
        GetOnlineUpdateCollection (fetch j) = .fetchError m →
        GetOnlineUpdateCollectionWithRetry fetch n delay = .error m)
    ∧ (∀ j c, j < n →
        (∀ i, i < j → GetOnlineUpdateCollection (fetch i) = .inProgress) →
        GetOnlineUpdateCollection (fetch j) = .ready c →
        GetOnlineUpdateCollectionWithRetry fetch n delay = .ok c) := by
  refine ⟨?_, ?_, ?_⟩
  · intro hall
    unfold GetOnlineUpdateCollectionWithRetry
    have := getCollectionRetryAux_skip fetch n n 0 n le_rfl
      (fun k hk => by simpa using hall k hk)
    rw [this]
    simp [getCollectionRetryAux]
  · intro j m hj hin hfe
    unfold GetOnlineUpdateCollectionWithRetry
    have := getCollectionRetryAux_skip fetch n j 0 n (by omega)
      (fun k hk => by simpa using hin k hk)
    rw [this]
    obtain ⟨rem', hrem⟩ : ∃ rem', n - j = rem' + 1 := ⟨n - j - 1, by omega⟩
    rw [hrem]
    have hj0 : (0 : Nat) + j = j := by omega
    rw [hj0]
    simp [getCollectionRetryAux, hfe]
  · intro j c hj hin hready
    unfold GetOnlineUpdateCollectionWithRetry
    have := getCollectionRetryAux_skip fetch n j 0 n (by omega)
      (fun k hk => by simpa using hin k hk)
    rw [this]
    obtain ⟨rem', hrem⟩ : ∃ rem', n - j = rem' + 1 := ⟨n - j - 1, by omega⟩
    rw [hrem]
    have hj0 : (0 : Nat) + j = j := by omega
    rw [hj0]
    simp [getCollectionRetryAux, hready]

/-- A collection POST whose body always decodes with status
`InProgress`. -/
def fetchInProgressW : Nat → CollectionHttpResult :=
  fun _ => .response 200 ""
    (.ok { status := "InProgress", lastStatusChangeDate := "", updateCollection := [] })

theorem get_collection_retry_budget_witness :
    GetOnlineUpdateCollectionWithRetry fetchInProgressW 3 oneSecondNs
      = .error (collectionNotReadyMsg 3) :=
  (get_collection_retry_budget fetchInProgressW 3 oneSecondNs).1 (by decide)

/-! ## C6: execute payload construction -/

/-- C6: `BuildExecutePayload` with operation time `Once` and no schedule
time is an input-validation error; with `Immediately` and a schedule time
present it succeeds with no `StartDate` key and the schedule-ignored
warning (not an error); with `Once` and a schedule time present the
payload's `StartDate` equals the schedule time. -/
theorem build_execute_payload_schedule_cases (plan : OnlineUpdateResourceModel)
    (isFsas : Bool) :
    (plan.executeOnlineUpdOperationTime = .value "Once" →
      (plan.executeOnlineUpdScheduleTime = .null
        ∨ plan.executeOnlineUpdScheduleTime = .unknown) →
      BuildExecutePayload plan isFsas =
        .error ("attribute execute_online_upd_schedule_time is required when " ++
          "execute_online_upd_operation_time is Once"))
    ∧ (∀ s, plan.executeOnlineUpdOperationTime = .value "Immediately" →
      plan.executeOnlineUpdScheduleTime = .value s →
      BuildExecutePayload plan isFsas =
        .ok ({ executionMode := "ExecuteUpdate", schedulingType := "Immediately",
               startDate := none }, true))
    ∧ (∀ s, plan.executeOnlineUpdOperationTime = .value "Once" →
      plan.executeOnlineUpdScheduleTime = .value s →
      BuildExecutePayload plan isFsas =
        .ok ({ executionMode := "ExecuteUpdate", schedulingType := "Once",
               startDate := some s }, false)) := by
  refine ⟨?_, ?_, ?_⟩
  · intro hop hsched
    rcases hsched with h | h <;>
      simp [BuildExecutePayload, hop, h, TFString.isNull, TFString.isUnknown,
        TFString.valueString]
  · intro s hop hsched
    simp [BuildExecutePayload, hop, hsched, TFString.isNull, TFString.isUnknown,
      TFString.valueString]
  · intro s hop hsched
    simp [BuildExecutePayload, hop, hsched, TFString.isNull, TFString.isUnknown,
      TFString.valueString]

/-- A plan scheduling `Once` without a schedule time. -/
def planOnceNoSched : OnlineUpdateResourceModel :=
  { updateList := .null, executeOnlineUpdOperationTime := .value "Once",
    executeOnlineUpdScheduleTime := .null }

theorem build_execute_payload_schedule_cases_witness :
    BuildExecutePayload planOnceNoSched false =
      .error ("attribute execute_online_upd_schedule_time is required when " ++
        "execute_online_upd_operation_time is Once") :=
  (build_execute_payload_schedule_cases planOnceNoSched false).1 rfl (Or.inl rfl)

/-! ## C9: empty collection short-circuits Create -/

/-- C9: If the fetched update collection contains zero items, the Create
steps after collection retrieval succeed immediately for every plan
(desired list null or not): the id is set to the check endpoint and the
flow returns without selection reconciliation, any deselect call, payload
construction, an execute call, or a sleep. -/
theorem create_empty_collection_short_circuit (plan : OnlineUpdateResourceModel)
    (collection : OnlineUpdateCheck) (env : CreateEnv)
    (h : collection.updateCollection = []) :
    createAfterCollection plan collection env =
      { result := .ok (), warnings := [], idValue := some env.checkEndpoint,
        reconciled := false, deselectCalls := [], payloadAttempted := false,
        executeCalled := false, sleptSeconds := 0 } := by
  simp [createAfterCollection, h]

/-- An empty fetched collection. -/
def colEmptyW : OnlineUpdateCheck :=
  { lastStatusChangeDate := .value "2024-01-01T00:00:00Z", updateCollection := [] }

theorem create_empty_collection_short_circuit_witness :
    createAfterCollection (planOf .null) colEmptyW envOk =
      { result := .ok (), warnings := [], idValue := some envOk.checkEndpoint,
        reconciled := false, deselectCalls := [], payloadAttempted := false,
        executeCalled := false, sleptSeconds := 0 } :=
  create_empty_collection_short_circuit (planOf .null) colEmptyW envOk rfl

/-! ## C5: a 2xx execute response without a task location header -/

/-- A plan in select-all mode executing `Immediately`. -/
def planC5 : OnlineUpdateResourceModel := planOf .null

/-- An environment whose execute POST answers 200 without a `Location`
header. -/
def envNoLocation : CreateEnv :=
  { checkEndpoint := "/redfish/v1/Systems/0/Oem/ts_fujitsu/eLCM/Actions/FTSeLCM.OnlineUpdate",
    isFsas := false,
    deselectOracle := fun _ => .response 200 "",
    executeHttp := .response 200 "" "",
    pollExecuteResult := none }

/-- C5 counterexample: with a 2xx execute response carrying no task
location header and operation time `Immediately`, the Create flow does
NOT fall back to a 10-second wait and does NOT succeed: the missing
header is an error inside `TriggerOnlineUpdateExecute`, so Create fails
and no sleep occurs. -/
theorem execute_no_location_claim_counterexample :
    (createAfterCollection planC5 colSB envNoLocation).result =
      .error ("Trigger Online Update Execute Failed",
        "Task Location header not found in response")
    ∧ (createAfterCollection planC5 colSB envNoLocation).sleptSeconds = 0 := by
  constructor <;> rfl

/-- C5 (amended): when the execute call returns a 2xx status (200, 201,
202 or 204) but no task location header, `TriggerOnlineUpdateExecute`
returns the missing-header error, and a Create flow that reaches the
execute call fails with that error without any fixed wait; the 10-second
fallback is unreachable from a successful execute trigger, because a
successful trigger always returns a non-empty location. -/
theorem execute_no_location_errs (code : Nat) (body : String)
    (plan : OnlineUpdateResourceModel) (collection : OnlineUpdateCheck)
    (env : CreateEnv)
    (hcode : code = 200 ∨ code = 201 ∨ code = 202 ∨ code = 204)
    (hne : collection.updateCollection ≠ [])
    (hde : DeselectUpdates env.deselectOracle (PrepareUpdateLists plan collection).2 = none)
    (hpay : ∃ p, BuildExecutePayload plan env.isFsas = .ok p)
    (hshould : ((PrepareUpdateLists plan collection).1.length != 0
      || plan.updateList.isNull) = true)
    (hhttp : env.executeHttp = .response code "" body) :
    (∀ loc, TriggerOnlineUpdateExecute env.executeHttp ≠ .ok loc)
    ∧ (createAfterCollection plan collection env).result =
        .error ("Trigger Online Update Execute Failed",
          "Task Location header not found in response")
    ∧ (createAfterCollection plan collection env).sleptSeconds = 0 := by
  have htr : TriggerOnlineUpdateExecute env.executeHttp =
      .error "Task Location header not found in response" := by
    rw [hhttp]
    rcases hcode with rfl | rfl | rfl | rfl <;> rfl
  have hlen : ¬ collection.updateCollection.length = 0 := by
    simpa [List.length_eq_zero] using hne
  obtain ⟨p, hp⟩ := hpay
  refine ⟨fun loc hok => by rw [htr] at hok; exact Except.noConfusion hok, ?_, ?_⟩ <;>
    simp [createAfterCollection, hlen, hde, hp, hshould, htr]

theorem execute_no_location_errs_witness :
    (createAfterCollection planC5 colSB envNoLocation).sleptSeconds = 0 :=
  (execute_no_location_errs 200 "" planC5 colSB envNoLocation
    (Or.inl rfl) (by decide) (by decide) ⟨_, rfl⟩ (by decide) rfl).2.2

/-! ## C7: the execute-trigger decision -/

/-- If nothing was selected from a nonempty collection, every item was
deselected. -/
lemma buildSelectionLists_snd_length (parse : RequestParse) (applyAll : Bool)
    (items : List OnlineUpdateCheckItem)
    (hsel : (buildSelectionLists parse applyAll items).1 = [])
    (hne : items ≠ []) :
    (buildSelectionLists parse applyAll items).2.length = items.length := by
  cases applyAll with
  | true =>
    rw [buildSelectionLists_true] at hsel
    exact absurd (List.map_eq_nil_iff.1 hsel) hne
  | false =>
    rw [buildSelectionLists_false] at hsel ⊢
    have hfil : items.filter (fun item => updateItemSelected parse false item) = [] :=
      List.map_eq_nil_iff.1 hsel
    have hall := List.filter_eq_nil_iff.1 hfil
    have hcompl : items.filter (fun item => !updateItemSelected parse false item)
        = items := by
      rw [List.filter_eq_self]
      intro a ha
      simpa using hall a ha
    simp [hcompl]

/-- `PrepareUpdateLists` version of the previous lemma. -/
lemma selected_nil_deselected_all (plan : OnlineUpdateResourceModel)
    (collection : OnlineUpdateCheck)
    (hsel : (PrepareUpdateLists plan collection).1 = [])
    (hne : collection.updateCollection ≠ []) :
    (PrepareUpdateLists plan collection).2.length
      = collection.updateCollection.length := by
  rw [PrepareUpdateLists_def] at hsel ⊢
  exact buildSelectionLists_snd_length _ _ _ hsel hne

/-- C7: In the Create flow (with a nonempty collection and the deselect
and payload steps succeeding), the execute call is issued iff at least
one item was selected or the desired update list was null; and if the
list was explicitly non-null and nothing was selected, no execute call
is made and the flow succeeds with the no-matching-updates warning. -/
theorem execute_trigger_decision (plan : OnlineUpdateResourceModel)
    (collection : OnlineUpdateCheck) (env : CreateEnv)
    (hne : collection.updateCollection ≠ [])
    (hde : DeselectUpdates env.deselectOracle (PrepareUpdateLists plan collection).2 = none)
    (hpay : ∃ p, BuildExecutePayload plan env.isFsas = .ok p) :
    (createAfterCollection plan collection env).executeCalled =
      ((PrepareUpdateLists plan collection).1.length != 0 || plan.updateList.isNull)
    ∧ (plan.updateList.isNull = false → (PrepareUpdateLists plan collection).1 = [] →
        (createAfterCollection plan collection env).executeCalled = false
        ∧ (createAfterCollection plan collection env).result = .ok ()
        ∧ (createAfterCollection plan collection env).warnings
            = ["No matching updates found"]) := by
  have hlen : ¬ collection.updateCollection.length = 0 := by
    simpa [List.length_eq_zero] using hne
  obtain ⟨p, hp⟩ := hpay
  constructor
  · by_cases hcond : ((PrepareUpdateLists plan collection).1.length != 0
        || plan.updateList.isNull) = true
    · rw [hcond]
      cases htr : TriggerOnlineUpdateExecute env.executeHttp with
      | error e => simp [createAfterCollection, hlen, hde, hp, hcond, htr]
      | ok loc =>
        by_cases him : plan.executeOnlineUpdOperationTime.valueString = "Immediately"
        · by_cases hloc : loc = ""
          · simp [createAfterCollection, hlen, hde, hp, hcond, htr, him, hloc]
          · cases hpoll : env.pollExecuteResult with
            | some e =>
              simp [createAfterCollection, hlen, hde, hp, hcond, htr, him, hloc, hpoll]
            | none =>
              simp [createAfterCollection, hlen, hde, hp, hcond, htr, him, hloc, hpoll]
        · simp [createAfterCollection, hlen, hde, hp, hcond, htr, him]
    · have hcond' : ((PrepareUpdateLists plan collection).1.length != 0
          || plan.updateList.isNull) = false := by
        simpa using hcond
      rw [hcond']
      simp [createAfterCollection, hlen, hde, hp, hcond']
  · intro hnull hselnil
    have hsellen : (PrepareUpdateLists plan collection).1.length = 0 := by
      rw [hselnil]
      rfl
    have hcond' : ((PrepareUpdateLists plan collection).1.length != 0
        || plan.updateList.isNull) = false := by
      simp [hsellen, hnull]
    have hdlen := selected_nil_deselected_all plan collection hselnil hne
    refine ⟨?_, ?_, ?_⟩ <;>
      simp [createAfterCollection, hlen, hde, hp, hcond', hnull, hsellen, hdlen]

theorem execute_trigger_decision_witness :
    (createAfterCollection (planOf (.value ["LanController"])) colSB envOk).warnings
      = ["No matching updates found"] :=
  ((execute_trigger_decision (planOf (.value ["LanController"])) colSB envOk
    (by decide) (by decide) ⟨_, rfl⟩).2 (by decide) (by decide)).2.2
